import Mathlib

/-!
Shallow embedding of the timing core of `src/src/App.tsx` (digital clock app):
the stopwatch engine, the countdown timer engine, the alarm scheduler and the
mode cycler.  Timestamps are epoch milliseconds modelled as `Int` (JS number
arithmetic on `Date.now()` values is exact integer arithmetic in this range);
nullable ref fields (`startAt`, `endAt`, pending timeout handles) are
`Option Int`.  Pending `setTimeout` callbacks are modelled by their absolute
firing deadline.
-/

namespace ClockApp

/-- JS truthiness of a nullable number (`x &&`, `if (x)`): null and 0 are falsy. -/
def jsTruthy : Option Int → Bool
  | none => false
  | some a => a != 0

/-- JS `x || d` on a nullable number: yields `d` when `x` is null or 0
(App.tsx:261 `swRef.current.startAt || nowp`). -/
def jsOrElse : Option Int → Int → Int
  | none, d => d
  | some a, d => if a = 0 then d else a

/-- `Math.ceil(a / b)` for integer `a` and positive integer `b`. -/
def ceilDiv (a b : Int) : Int := (a + (b - 1)).fdiv b

/-- The five display modes, in the fixed cycle order of `MODES` (App.tsx:66). -/
inductive Mode
  | TIME
  | DATE
  | TEMP
  | STOPWATCH
  | TIMER
deriving DecidableEq, Repr

/-- `const MODES: Mode[] = ["TIME", "DATE", "TEMP", "STOPWATCH", "TIMER"]` (App.tsx:66). -/
def MODES : List Mode := [Mode.TIME, Mode.DATE, Mode.TEMP, Mode.STOPWATCH, Mode.TIMER]

/-- `cycleMode`: `setModeIndex((m) => (m + 1) % MODES.length)` (App.tsx:84-86). -/
def cycleMode (i : Nat) : Nat := (i + 1) % MODES.length

/-- Modelled from the spec: the first-load default of the persisted
`autoModeEnabled` flag is `false`; the auto-cycle variant of the UI is not
among the files under src/. -/
def autoModeDefault : Bool := false

/-- Modelled from the spec: when auto-cycle is enabled, a recurring 5 s timer
advances the mode index by `index := (index + 1) mod 3`; this code is in a UI
variant of the repository that is not among the files under src/. -/
def autoCycleAdvance (i : Nat) : Nat := (i + 1) % 3

/-- `String(n).padStart(2, "0")` (App.tsx:221-222). -/
def pad2 (n : Int) : String :=
  let s := toString n
  if s.length < 2 then "0" ++ s else s

/-- The `HH:MM` string the alarm-check effect builds from `now`
(App.tsx:221-223).  `Date.getHours` and `Date.getMinutes` are modelled from
the epoch-millisecond timestamp; the local timezone offset is abstracted to 0. -/
def currentHHMM (t : Int) : String :=
  pad2 ((t.fdiv 3600000) % 24) ++ ":" ++ pad2 ((t.fdiv 60000) % 60)

/-- The relevant React state and refs of the `App` component.
`alarmTimeout` is the absolute deadline of the pending 60 s auto-stop timeout
held in `alarmTimeoutRef` (App.tsx:206); `ringTimeout` is the deadline of the
anonymous 5 s timeout scheduled on timer expiry (App.tsx:315), for which the
code keeps no handle; `expiredEvents` is a ghost counter instrumenting how
many times the timer-expiry branch (App.tsx:311-316) has run. -/
structure AppState where
  alarmEnabled : Bool
  alarmTime : String
  isAlarmRinging : Bool
  alarmTimeout : Option Int
  swRunning : Bool
  swElapsed : Int
  swAccumulated : Int
  swStartAt : Option Int
  timerRunning : Bool
  timerRemaining : Int
  timerEndAt : Option Int
  timerBase : Int
  ringTimeout : Option Int
  expiredEvents : Nat
deriving DecidableEq, Repr

/-- The component state on first load with empty storage: the documented
defaults `alarm={enabled:false, time:"07:30"}`, elapsed/remaining = 0, and
both engines not running (App.tsx:200-202, 245-249, 293-297). -/
def initState : AppState :=
  { alarmEnabled := false, alarmTime := "07:30", isAlarmRinging := false, alarmTimeout := none,
    swRunning := false, swElapsed := 0, swAccumulated := 0, swStartAt := none,
    timerRunning := false, timerRemaining := 0, timerEndAt := none, timerBase := 0,
    ringTimeout := none, expiredEvents := 0 }

/-- The alarm-check effect run on a clock tick at wall time `t`
(App.tsx:219-234): gated on `alarm.enabled && !isAlarmRinging`; on an `HH:MM`
match it sets `isAlarmRinging` and schedules the 60 s auto-stop timeout. -/
def alarmCheck (t : Int) (s : AppState) : AppState :=
  if s.alarmEnabled && !s.isAlarmRinging then
    if currentHHMM t = s.alarmTime then
      { s with isAlarmRinging := true, alarmTimeout := some (t + 60000) }
    else s
  else s

/-- Folding the alarm-check effect over a list of tick times. -/
def alarmRun (l : List Int) (s : AppState) : AppState :=
  l.foldl (fun st u => alarmCheck u st) s

/-- The pending 60 s auto-stop timeout firing when wall time reaches its
deadline (App.tsx:227-230): `setIsAlarmRinging(false)`; the consumed token is
dropped. -/
def alarmTimeoutFire (t : Int) (s : AppState) : AppState :=
  match s.alarmTimeout with
  | some d => if d ≤ t then { s with isAlarmRinging := false, alarmTimeout := none } else s
  | none => s

/-- `stopAlarm` (App.tsx:236-242): stop ringing and cancel the pending
auto-stop timeout. -/
def stopAlarm (s : AppState) : AppState :=
  { s with isAlarmRinging := false, alarmTimeout := none }

/-- One 100 ms stopwatch interval callback at wall time `t` (App.tsx:259-263);
the interval exists only while `swRunning`.  `Math.floor` on the integer
difference is the identity. -/
def swTick (t : Int) (s : AppState) : AppState :=
  if s.swRunning then
    { s with swElapsed := t - jsOrElse s.swStartAt t }
  else s

/-- Folding stopwatch heartbeats over a list of tick times. -/
def swRun (l : List Int) (s : AppState) : AppState :=
  l.foldl (fun st u => swTick u st) s

/-- `swStartPause` together with the effect on `swRunning` (App.tsx:253-285).
Running to paused: the updater and the effect both store the current elapsed
value into `accumulated` (when `startAt` is truthy) and the effect clears
`startAt`.  Paused to running: the effect anchors
`startAt := Date.now() - accumulated` and starts the 100 ms interval. -/
def swStartPause (t : Int) (s : AppState) : AppState :=
  if s.swRunning then
    if jsTruthy s.swStartAt then
      { s with swRunning := false, swAccumulated := s.swElapsed, swStartAt := none }
    else
      { s with swRunning := false }
  else
    { s with swRunning := true, swStartAt := some (t - s.swAccumulated) }

/-- `swReset` (App.tsx:286-290). -/
def swReset (s : AppState) : AppState :=
  { s with swRunning := false, swStartAt := none, swAccumulated := 0, swElapsed := 0 }

/-- One 250 ms timer interval callback at wall time `t` (App.tsx:304-322); the
interval is created only when `timerRunning && timerRef.current.endAt`.  It
publishes `left = Math.max(0, endAt - now)` and, exactly when `left === 0`,
stops the timer, raises the shared ringing flag and schedules the anonymous
5 s timeout (the expiry emission, counted by the ghost field). -/
def timerTick (t : Int) (s : AppState) : AppState :=
  if s.timerRunning && jsTruthy s.timerEndAt then
    let left := max 0 (s.timerEndAt.getD 0 - t)
    if left = 0 then
      { s with timerRemaining := left, timerRunning := false,
               isAlarmRinging := true, ringTimeout := some (t + 5000),
               expiredEvents := s.expiredEvents + 1 }
    else
      { s with timerRemaining := left }
  else s

/-- Folding timer heartbeats over a list of tick times. -/
def timerRun (l : List Int) (s : AppState) : AppState :=
  l.foldl (fun st u => timerTick u st) s

/-- `timerStart` (App.tsx:324-337): the effective duration is the current
`timerRemaining` when already running, else the argument; nonpositive
effective duration returns without any change; `base` is recorded only when
not already running. -/
def timerStart (t : Int) (ms : Int) (s : AppState) : AppState :=
  let startMs := if s.timerRunning then s.timerRemaining else ms
  if startMs ≤ 0 then s
  else
    let s1 := if !s.timerRunning then { s with timerBase := startMs } else s
    { s1 with timerEndAt := some (t + startMs), timerRemaining := startMs, timerRunning := true }

/-- `timerPause` (App.tsx:339-350). -/
def timerPause (t : Int) (s : AppState) : AppState :=
  if !s.timerRunning then s
  else
    let s1 := { s with timerRunning := false }
    if jsTruthy s1.timerEndAt then
      let left := max 0 (s1.timerEndAt.getD 0 - t)
      { s1 with timerRemaining := left, timerBase := left, timerEndAt := none }
    else s1

/-- `timerReset` (App.tsx:352-361): zeroes the timer, unconditionally clears
the shared ringing flag and cancels the pending 60 s alarm timeout; it cannot
touch `ringTimeout`, since the 5 s expiry timeout keeps no handle. -/
def timerReset (s : AppState) : AppState :=
  { s with timerRunning := false, timerEndAt := none, timerBase := 0,
           timerRemaining := 0, isAlarmRinging := false, alarmTimeout := none }

/-- The TIMER-mode START button handler (App.tsx:927-931):
`timerStart(timerRemaining > 0 ? timerRemaining : timerRef.current.base)`. -/
def timerResume (t : Int) (s : AppState) : AppState :=
  timerStart t (if s.timerRemaining > 0 then s.timerRemaining else s.timerBase) s

/-- The TIMER display case (App.tsx:458-485): the pair
`(effectiveM, effectiveS)` shown, with ceiling seconds while running or with
time remaining, and the `base`-derived fallback otherwise. -/
def timerDisplay (s : AppState) : Int × Int :=
  let left := s.timerRemaining
  let sTotal := ceilDiv left 1000
  let sec := sTotal.tmod 60
  let m := sTotal.fdiv 60
  let effM :=
    if s.timerRunning = true ∨ 0 < s.timerRemaining then m
    else (s.timerBase).fdiv 60000
  let effS :=
    if s.timerRunning = true ∨ 0 < s.timerRemaining then sec
    else ((s.timerBase).tmod 60000).fdiv 1000
  (effM, effS)

/-- A concrete running-timer state: 5 s remaining, deadline at epoch-ms
10000, configured duration 5 s. -/
def runningTimerState : AppState :=
  { initState with
      timerRunning := true
      timerRemaining := 5000
      timerEndAt := some 10000
      timerBase := 5000 }

/-- A concrete state in which the alarm engine itself is ringing: the shared
flag is set, the 60 s auto-silence token is pending, and no timer-expiry
timeout exists. -/
def alarmRingingState : AppState :=
  { initState with
      alarmEnabled := true
      isAlarmRinging := true
      alarmTimeout := some 60000
      ringTimeout := none }

/-- A concrete paused stopwatch holding 500 ms of accumulated time. -/
def swPausedState : AppState :=
  { initState with
      swAccumulated := 500
      swElapsed := 500 }

/-- A concrete armed alarm set for midnight. -/
def alarmArmedState : AppState :=
  { initState with
      alarmEnabled := true
      alarmTime := "00:00" }

/-- A concrete running timer about to expire: deadline at epoch-ms 2000. -/
def expiringTimerState : AppState :=
  { initState with
      timerRunning := true
      timerRemaining := 1500
      timerEndAt := some 2000 }

/-- A concrete running timer about to expire while an enabled alarm is set
for the current minute. -/
def expiryRingMatchState : AppState :=
  { initState with
      alarmEnabled := true
      alarmTime := "00:00"
      timerRunning := true
      timerRemaining := 1500
      timerEndAt := some 2000 }

/-- A concrete running timer with 400 ms remaining. -/
def display400State : AppState :=
  { initState with
      timerRunning := true
      timerRemaining := 400 }

/-! Helper lemmas shared by the claim theorems. -/

theorem fdiv_natCast (m n : Nat) : Int.fdiv (m : Int) (n : Int) = ((m / n : Nat) : Int) :=
  (Int.ofNat_fdiv m n).symm

theorem tmod_natCast (m n : Nat) : Int.tmod (m : Int) (n : Int) = ((m % n : Nat) : Int) :=
  Int.ofNat_tmod m n

theorem decompose_sixty (n : Int) (h : 0 ≤ n) : 60 * n.fdiv 60 + n.tmod 60 = n := by
  obtain ⟨m, hm⟩ := Int.eq_ofNat_of_zero_le h
  subst hm
  rw [show (60 : Int) = ((60 : Nat) : Int) from rfl, fdiv_natCast, tmod_natCast]
  omega

theorem decompose_base (b : Int) (h : 0 ≤ b) :
    60 * b.fdiv 60000 + (b.tmod 60000).fdiv 1000 = b.fdiv 1000 := by
  obtain ⟨m, hm⟩ := Int.eq_ofNat_of_zero_le h
  subst hm
  rw [show (60000 : Int) = ((60000 : Nat) : Int) from rfl,
    show (1000 : Int) = ((1000 : Nat) : Int) from rfl,
    fdiv_natCast, tmod_natCast, fdiv_natCast, fdiv_natCast]
  omega

theorem ceilDiv_thousand_nonneg (a : Int) (h : 0 ≤ a) : 0 ≤ ceilDiv a 1000 := by
  obtain ⟨m, hm⟩ := Int.eq_ofNat_of_zero_le (show (0 : Int) ≤ a + (1000 - 1) by omega)
  unfold ceilDiv
  rw [hm, show (1000 : Int) = ((1000 : Nat) : Int) from rfl, fdiv_natCast]
  omega

theorem ceilDiv_thousand_pos (a : Int) (h : 0 < a) : 1 ≤ ceilDiv a 1000 := by
  obtain ⟨m, hm⟩ := Int.eq_ofNat_of_zero_le (show (0 : Int) ≤ a + (1000 - 1) by omega)
  unfold ceilDiv
  rw [hm, show (1000 : Int) = ((1000 : Nat) : Int) from rfl, fdiv_natCast]
  have hm1000 : 1000 ≤ m := by omega
  omega

theorem alarmCheck_skip_of_ringing (t : Int) (s : AppState) (h : s.isAlarmRinging = true) :
    alarmCheck t s = s := by
  simp [alarmCheck, h]

theorem alarmRun_skip_of_ringing (l : List Int) :
    ∀ s : AppState, s.isAlarmRinging = true → alarmRun l s = s := by
  induction l with
  | nil => intro s _; rfl
  | cons u l ih =>
    intro s h
    show alarmRun l (alarmCheck u s) = s
    rw [alarmCheck_skip_of_ringing u s h, ih s h]

theorem timerTick_of_not_running (t : Int) (s : AppState) (h : s.timerRunning = false) :
    timerTick t s = s := by
  simp [timerTick, h]

theorem timerRun_of_not_running (l : List Int) :
    ∀ s : AppState, s.timerRunning = false → timerRun l s = s := by
  induction l with
  | nil => intro s _; rfl
  | cons u l ih =>
    intro s h
    show timerRun l (timerTick u s) = s
    rw [timerTick_of_not_running u s h, ih s h]

theorem swTick_preserve (t : Int) (s : AppState) (h : s.swRunning = true) :
    (swTick t s).swRunning = true ∧ (swTick t s).swStartAt = s.swStartAt := by
  simp [swTick, h]

theorem swRun_preserve (l : List Int) :
    ∀ s : AppState, s.swRunning = true →
      (swRun l s).swRunning = true ∧ (swRun l s).swStartAt = s.swStartAt := by
  induction l with
  | nil => intro s h; exact ⟨h, rfl⟩
  | cons u l ih =>
    intro s h
    have hstep := swTick_preserve u s h
    have := ih (swTick u s) hstep.1
    exact ⟨this.1, by rw [show swRun (u :: l) s = swRun l (swTick u s) from rfl, this.2, hstep.2]⟩

theorem swRun_append (l : List Int) (u : Int) (s : AppState) :
    swRun (l ++ [u]) s = swTick u (swRun l s) := by
  simp [swRun, List.foldl_append]

theorem swTick_elapsed (t a : Int) (s : AppState) (hRun : s.swRunning = true)
    (hAt : s.swStartAt = some a) (hne : a ≠ 0) :
    (swTick t s).swElapsed = t - a := by
  simp [swTick, hRun, hAt, jsOrElse, hne]

/-! Claim theorems. -/

/-- C1: the paused-to-running transition at time `tr` anchors
`startAt := tr - accumulated`, so a heartbeat at the moment of resume already
publishes the accumulated value `A` (resume continues from `A`, it does not
restart), every later heartbeat publishes exactly `now - startAt`
independently of how many heartbeats were delivered or skipped before it, and
whenever the last delivered heartbeat falls within one 100 ms heartbeat
period of real elapsed time `T`, the published elapsed is within one
heartbeat period of `A + T`. -/
theorem stopwatch_resume_drift (s : AppState) (tr T tl : Int) (l : List Int)
    (hRun : s.swRunning = false)
    (hPos : s.swAccumulated < tr)
    (hlo : tr + T - 100 ≤ tl) (hhi : tl ≤ tr + T) :
    (swTick tr (swStartPause tr s)).swElapsed = s.swAccumulated
    ∧ (swRun (l ++ [tl]) (swStartPause tr s)).swElapsed = (tl - tr) + s.swAccumulated
    ∧ s.swAccumulated + T - 100 ≤ (swRun (l ++ [tl]) (swStartPause tr s)).swElapsed
    ∧ (swRun (l ++ [tl]) (swStartPause tr s)).swElapsed ≤ s.swAccumulated + T := by
  have hs0 : swStartPause tr s =
      { s with swRunning := true, swStartAt := some (tr - s.swAccumulated) } := by
    simp [swStartPause, hRun]
  have hne : tr - s.swAccumulated ≠ 0 := by omega
  have h1 : (swTick tr (swStartPause tr s)).swElapsed = s.swAccumulated := by
    rw [hs0, swTick_elapsed tr (tr - s.swAccumulated) _ rfl rfl hne]
    omega
  have hinv := swRun_preserve l (swStartPause tr s) (by rw [hs0])
  have hAt : (swRun l (swStartPause tr s)).swStartAt = some (tr - s.swAccumulated) := by
    rw [hinv.2, hs0]
  have h2 : (swRun (l ++ [tl]) (swStartPause tr s)).swElapsed = (tl - tr) + s.swAccumulated := by
    rw [swRun_append, swTick_elapsed tl (tr - s.swAccumulated) _ hinv.1 hAt hne]
    omega
  exact ⟨h1, h2, by omega, by omega⟩

/-- C2: with the alarm enabled, not yet ringing, and the configured `HH:MM`
equal to the current minute, the first clock tick inside the minute sets
`ringing := true` and schedules the 60 s auto-stop; while ringing, every
further alarm-check tick (in particular the remaining ticks of the same
minute) leaves the state untouched, so the match cannot re-trigger; ringing
ends either when the auto-stop deadline `t0 + 60000` is reached (and not
before) or on an explicit `stopAlarm`. -/
theorem alarm_fires_once_per_minute (s : AppState) (t0 : Int)
    (hEn : s.alarmEnabled = true) (hNR : s.isAlarmRinging = false)
    (hMatch : s.alarmTime = currentHHMM t0) :
    (alarmCheck t0 s).isAlarmRinging = true
    ∧ (alarmCheck t0 s).alarmTimeout = some (t0 + 60000)
    ∧ (∀ l : List Int, alarmRun l (alarmCheck t0 s) = alarmCheck t0 s)
    ∧ (∀ u : Int, u < t0 + 60000 → alarmTimeoutFire u (alarmCheck t0 s) = alarmCheck t0 s)
    ∧ (alarmTimeoutFire (t0 + 60000) (alarmCheck t0 s)).isAlarmRinging = false
    ∧ (stopAlarm (alarmCheck t0 s)).isAlarmRinging = false := by
  have hstep : alarmCheck t0 s =
      { s with isAlarmRinging := true, alarmTimeout := some (t0 + 60000) } := by
    simp [alarmCheck, hEn, hNR, hMatch]
  refine ⟨by rw [hstep], by rw [hstep], ?_, ?_, ?_, by simp [stopAlarm]⟩
  · intro l
    exact alarmRun_skip_of_ringing l _ (by rw [hstep])
  · intro u hu
    rw [hstep]
    simp only [alarmTimeoutFire]
    rw [if_neg (by omega)]
  · rw [hstep]
    simp only [alarmTimeoutFire]
    rw [if_pos (by omega)]

/-- C3: starting the timer with duration `d > 0`, then pausing at `t1`
strictly inside the countdown, freezes `remainingMs = r = t0 + d - t1`
with `0 < r < d`; the resume path (the START handler passing the current
remaining value) continues from `r` rather than resetting to `d`, re-anchoring
the end timestamp to `t2 + r`; and in general `timerStart` invoked while the
timer is already running ignores the caller-supplied argument, using the
current `remainingMs` as the effective duration. -/
theorem timer_pause_resume_roundtrip (s : AppState) (t0 t1 t2 d : Int)
    (hNR : s.timerRunning = false) (hd : 0 < d) (ht0 : 0 < t0)
    (h01 : t0 < t1) (h1d : t1 < t0 + d) :
    (timerPause t1 (timerStart t0 d s)).timerRemaining = t0 + d - t1
    ∧ (timerPause t1 (timerStart t0 d s)).timerRunning = false
    ∧ (timerResume t2 (timerPause t1 (timerStart t0 d s))).timerRemaining = t0 + d - t1
    ∧ t0 + d - t1 < d
    ∧ (timerResume t2 (timerPause t1 (timerStart t0 d s))).timerEndAt = some (t2 + (t0 + d - t1))
    ∧ (timerResume t2 (timerPause t1 (timerStart t0 d s))).timerRunning = true
    ∧ (∀ (u ms ms2 : Int) (s2 : AppState), s2.timerRunning = true →
        timerStart u ms s2 = timerStart u ms2 s2) := by
  have hnd : ¬ d ≤ 0 := by omega
  have hs1 : timerStart t0 d s =
      { s with timerBase := d, timerEndAt := some (t0 + d),
               timerRemaining := d, timerRunning := true } := by
    simp [timerStart, hNR, hnd]
  have hr : max 0 (t0 + d - t1) = t0 + d - t1 := by omega
  have hs2 : timerPause t1 (timerStart t0 d s) =
      { s with timerBase := t0 + d - t1, timerEndAt := none,
               timerRemaining := t0 + d - t1, timerRunning := false } := by
    rw [hs1]
    have hne : (t0 + d : Int) ≠ 0 := by omega
    simp [timerPause, jsTruthy, hne, hr]
  have hs3 : timerResume t2 (timerPause t1 (timerStart t0 d s)) =
      { s with timerBase := t0 + d - t1, timerEndAt := some (t2 + (t0 + d - t1)),
               timerRemaining := t0 + d - t1, timerRunning := true } := by
    rw [hs2]
    have hrpos : (0 : Int) < t0 + d - t1 := by omega
    have hnr2 : ¬ (t0 + d - t1 ≤ 0) := by omega
    simp [timerResume, timerStart, hrpos, hnr2]
  refine ⟨by rw [hs2], by rw [hs2], by rw [hs3], by omega, by rw [hs3], by rw [hs3], ?_⟩
  intro u ms ms2 s2 h2
  simp [timerStart, h2]

/-- C4: contrary to the claim, the stopwatch heartbeat does not clamp a
backward wall-clock jump: with the stopwatch running and `startAt = 1000`, a
heartbeat at `now = 500` publishes `swElapsed = -500 < 0`.  The timer
heartbeat, by contrast, does clamp: it either leaves `remainingMs` unchanged
or publishes `max 0 (endAt - now) ≥ 0`. -/
theorem stopwatch_backward_jump_negative :
    (swTick 500 { initState with swRunning := true, swStartAt := some 1000 }).swElapsed = -500
    ∧ (swTick 500 { initState with swRunning := true, swStartAt := some 1000 }).swElapsed < 0
    ∧ (∀ (t : Int) (s : AppState), (timerTick t s).timerRemaining = s.timerRemaining
        ∨ 0 ≤ (timerTick t s).timerRemaining) := by
  refine ⟨by decide, by decide, ?_⟩
  intro t s
  by_cases hg : (s.timerRunning && jsTruthy s.timerEndAt) = true
  · right
    simp only [timerTick, hg, if_true]
    by_cases hz : max 0 (s.timerEndAt.getD 0 - t) = 0
    · rw [if_pos hz]
      exact le_max_left 0 _
    · rw [if_neg hz]
      exact le_max_left 0 _
  · left
    simp [timerTick, hg]

/-- C10: on any clock tick taken while the shared ringing flag is already
true — in particular during the 5 s ring a timer expiry starts — the
alarm-check effect returns the state unchanged: the `HH:MM` comparison is
skipped, so no new ringing or 60 s auto-silence window is started. -/
theorem alarm_check_skipped_while_ringing (t : Int) (s : AppState)
    (h : s.isAlarmRinging = true) :
    alarmCheck t s = s
    ∧ (alarmCheck t s).alarmTimeout = s.alarmTimeout
    ∧ (alarmCheck t s).ringTimeout = s.ringTimeout := by
  have h0 := alarmCheck_skip_of_ringing t s h
  exact ⟨h0, by rw [h0], by rw [h0]⟩

/-- C5: a heartbeat at wall time `t ≥ endAt` of a running timer publishes
`remainingMs = 0`, stops the timer on that same heartbeat, runs the expiry
branch exactly once (ghost counter goes up by one, the shared ringing flag is
raised, and the anonymous expiry timeout is scheduled for the fixed 5 s
window `t + 5000`, leaving the alarm engine's own 60 s token untouched); and
since the interval is gated on `timerRunning`, no later heartbeat changes the
state, so no second expiry is emitted for this countdown. -/
theorem timer_expiry_emitted_once (s : AppState) (e t : Int)
    (hRun : s.timerRunning = true) (hEnd : s.timerEndAt = some e)
    (hePos : 0 < e) (hte : e ≤ t) :
    (timerTick t s).timerRemaining = 0
    ∧ (timerTick t s).timerRunning = false
    ∧ (timerTick t s).expiredEvents = s.expiredEvents + 1
    ∧ (timerTick t s).isAlarmRinging = true
    ∧ (timerTick t s).ringTimeout = some (t + 5000)
    ∧ (timerTick t s).alarmTimeout = s.alarmTimeout
    ∧ (∀ l : List Int, timerRun l (timerTick t s) = timerTick t s) := by
  have hne : e ≠ 0 := by omega
  have hz : max 0 (e - t) = 0 := by omega
  have hstep : timerTick t s =
      { s with timerRemaining := 0, timerRunning := false,
               isAlarmRinging := true, ringTimeout := some (t + 5000),
               expiredEvents := s.expiredEvents + 1 } := by
    simp [timerTick, hRun, hEnd, jsTruthy, hne, hz]
  refine ⟨by rw [hstep], by rw [hstep], by rw [hstep], by rw [hstep], by rw [hstep],
    by rw [hstep], ?_⟩
  intro l
  exact timerRun_of_not_running l _ (by rw [hstep])

/-- C6 counterexample: `timerStart` with a nonpositive duration is not a
no-op when the timer is already running with time remaining: at the concrete
state below, `timerStart 7000 (-1)` moves `endEpochMs` from 10000 to 12000
(the argument is ignored and the deadline is re-anchored), so the state
changes. -/
theorem timerStart_nonpos_changes_running_state :
    ((-1 : Int) ≤ 0)
    ∧ timerStart 7000 (-1) runningTimerState ≠ runningTimerState
    ∧ (timerStart 7000 (-1) runningTimerState).timerEndAt = some 12000
    ∧ runningTimerState.timerRunning = true := by
  refine ⟨by decide, by decide, by decide, by decide⟩

/-- C6 as amended: for a nonpositive duration `ms ≤ 0`, `timerStart` is a
silent no-op (no error, all fields unchanged) whenever the timer is not
running; when the timer is running the caller-supplied argument is ignored
entirely (any two arguments give the same result), and the call is a no-op
exactly when the current `remainingMs` is nonpositive. -/
theorem timerStart_nonpos_noop_when_idle (t ms : Int) (s : AppState) (hms : ms ≤ 0) :
    (s.timerRunning = false → timerStart t ms s = s)
    ∧ (∀ ms2 : Int, s.timerRunning = true → timerStart t ms s = timerStart t ms2 s)
    ∧ (s.timerRunning = true → s.timerRemaining ≤ 0 → timerStart t ms s = s) := by
  refine ⟨?_, ?_, ?_⟩
  · intro h
    simp [timerStart, h, hms]
  · intro ms2 h
    simp [timerStart, h]
  · intro h hrem
    simp [timerStart, h, hrem]

/-- C7: the mode cycler.  Manual `cycleMode` advances the index by
`(i + 1) mod 5` over the fixed five-mode sequence; the spec-modelled
auto-cycle advance is `(i + 1) mod 3`, so after an auto step the index is
always below 3 and the selected mode is one of TIME, DATE, TEMP — never
STOPWATCH or TIMER; the persisted auto-mode flag defaults to false. -/
theorem mode_cycling_bounds (i : Nat) :
    autoModeDefault = false
    ∧ autoCycleAdvance i < 3
    ∧ (MODES.getD (autoCycleAdvance i) Mode.TIME = Mode.TIME
        ∨ MODES.getD (autoCycleAdvance i) Mode.TIME = Mode.DATE
        ∨ MODES.getD (autoCycleAdvance i) Mode.TIME = Mode.TEMP)
    ∧ MODES.getD (autoCycleAdvance i) Mode.TIME ≠ Mode.STOPWATCH
    ∧ MODES.getD (autoCycleAdvance i) Mode.TIME ≠ Mode.TIMER
    ∧ cycleMode i = (i + 1) % 5
    ∧ cycleMode 2 = 3 ∧ MODES.getD 3 Mode.TIME = Mode.STOPWATCH
    ∧ cycleMode 3 = 4 ∧ MODES.getD 4 Mode.TIME = Mode.TIMER := by
  have h3 : autoCycleAdvance i < 3 := Nat.mod_lt _ (by decide)
  have hcase : ∀ j : Nat, j < 3 →
      (MODES.getD j Mode.TIME = Mode.TIME
        ∨ MODES.getD j Mode.TIME = Mode.DATE
        ∨ MODES.getD j Mode.TIME = Mode.TEMP)
      ∧ MODES.getD j Mode.TIME ≠ Mode.STOPWATCH
      ∧ MODES.getD j Mode.TIME ≠ Mode.TIMER := by
    intro j hj
    interval_cases j <;> exact ⟨by decide, by decide, by decide⟩
  obtain ⟨hmem, hns, hnt⟩ := hcase _ h3
  exact ⟨rfl, h3, hmem, hns, hnt, rfl, rfl, rfl, rfl, rfl⟩

/-- C8: the TIMER display.  While running or while time remains (and
`remainingMs ≥ 0`), the shown minutes and seconds decompose the ceiling
`secondsTotal = ceil(remainingMs/1000)`; any strictly positive remaining
time yields at least one displayed second (400 ms shows as 0:01, not 0:00);
and when the timer is idle with `remainingMs = 0`, the shown value
decomposes `baseMs` (the last configured duration) instead of showing zero. -/
theorem timer_display_semantics (s : AppState) :
    (0 ≤ s.timerRemaining → (s.timerRunning = true ∨ 0 < s.timerRemaining) →
      60 * (timerDisplay s).1 + (timerDisplay s).2 = ceilDiv s.timerRemaining 1000)
    ∧ (0 < s.timerRemaining → 1 ≤ ceilDiv s.timerRemaining 1000)
    ∧ (s.timerRunning = false → s.timerRemaining = 0 → 0 ≤ s.timerBase →
      60 * (timerDisplay s).1 + (timerDisplay s).2 = (s.timerBase).fdiv 1000)
    ∧ (s.timerRunning = true → s.timerRemaining = 400 → timerDisplay s = (0, 1)) := by
  refine ⟨?_, ?_, ?_, ?_⟩
  · intro hnn hrun
    simp only [timerDisplay, if_pos hrun]
    exact decompose_sixty _ (ceilDiv_thousand_nonneg _ hnn)
  · intro hpos
    exact ceilDiv_thousand_pos _ hpos
  · intro hnr hz hb
    have hcond : ¬ (s.timerRunning = true ∨ 0 < s.timerRemaining) := by
      rw [hnr, hz]
      simp
    simp only [timerDisplay, if_neg hcond]
    exact decompose_base _ hb
  · intro hrun hrem
    simp only [timerDisplay, hrem, hrun]
    norm_num
    decide

/-- C9 counterexample: at the concrete state below the ringing was caused by
the alarm engine (its 60 s auto-silence token is pending and no timer-expiry
timeout exists), yet `timerReset` silences the ringing and cancels the alarm
token — the alarm-owned ring state is not left unchanged. -/
theorem timerReset_clobbers_alarm_state :
    (timerReset alarmRingingState).isAlarmRinging = false
    ∧ (timerReset alarmRingingState).alarmTimeout = none
    ∧ alarmRingingState.isAlarmRinging = true
    ∧ alarmRingingState.alarmTimeout = some 60000
    ∧ alarmRingingState.ringTimeout = none := by
  refine ⟨by decide, by decide, by decide, by decide, by decide⟩

/-- C9 as amended: `timerReset` zeroes the timer (`running = false`,
`endEpochMs` absent, `remainingMs = 0`, `baseMs = 0`) and unconditionally
clears the shared ringing flag and cancels the pending 60 s auto-silence
token, even when these belong to the alarm engine's own firing; the pending
5 s timer-expiry timeout is not cancelled (no handle is kept for it), and
the alarm configuration, stopwatch state and ghost expiry counter are
unchanged. -/
theorem timerReset_effects (s : AppState) :
    (timerReset s).timerRunning = false
    ∧ (timerReset s).timerEndAt = none
    ∧ (timerReset s).timerRemaining = 0
    ∧ (timerReset s).timerBase = 0
    ∧ (timerReset s).isAlarmRinging = false
    ∧ (timerReset s).alarmTimeout = none
    ∧ (timerReset s).ringTimeout = s.ringTimeout
    ∧ (timerReset s).alarmEnabled = s.alarmEnabled
    ∧ (timerReset s).alarmTime = s.alarmTime
    ∧ (timerReset s).swRunning = s.swRunning
    ∧ (timerReset s).swElapsed = s.swElapsed
    ∧ (timerReset s).swAccumulated = s.swAccumulated
    ∧ (timerReset s).swStartAt = s.swStartAt
    ∧ (timerReset s).expiredEvents = s.expiredEvents :=
  ⟨rfl, rfl, rfl, rfl, rfl, rfl, rfl, rfl, rfl, rfl, rfl, rfl, rfl, rfl⟩

/-! Witnesses: each applies its claim theorem at a concrete input. -/

/-- C1 witness: resuming at 1000 with 500 ms accumulated and heartbeats at
1100, 1500 and 4070 publishes 3570 ms, within one heartbeat of 500 + 3100. -/
theorem stopwatch_resume_drift_witness :
    swPausedState.swRunning = false
    ∧ swPausedState.swAccumulated < 1000
    ∧ (swRun ([1100, 1500] ++ [4070]) (swStartPause 1000 swPausedState)).swElapsed
        = (4070 - 1000) + swPausedState.swAccumulated :=
  ⟨by decide, by decide,
    (stopwatch_resume_drift swPausedState 1000 3100 4070 [1100, 1500]
      (by decide) (by decide) (by decide) (by decide)).2.1⟩

/-- C2 witness: an armed midnight alarm fires on the tick at epoch-ms 0,
ignores later ticks of the minute, and auto-silences at 60000. -/
theorem alarm_fires_once_per_minute_witness :
    alarmArmedState.alarmTime = currentHHMM 0
    ∧ (alarmCheck 0 alarmArmedState).isAlarmRinging = true
    ∧ alarmRun [1000, 2000, 59000] (alarmCheck 0 alarmArmedState) = alarmCheck 0 alarmArmedState
    ∧ (alarmTimeoutFire 60000 (alarmCheck 0 alarmArmedState)).isAlarmRinging = false :=
  ⟨by decide,
    (alarm_fires_once_per_minute alarmArmedState 0 (by decide) (by decide) (by decide)).1,
    (alarm_fires_once_per_minute alarmArmedState 0 (by decide) (by decide)
      (by decide)).2.2.1 [1000, 2000, 59000],
    (alarm_fires_once_per_minute alarmArmedState 0 (by decide) (by decide)
      (by decide)).2.2.2.2.1⟩

/-- C3 witness: start 5000 ms at 1000, pause at 3000 (3000 ms left), resume
at 10000: the countdown continues from 3000 ms, not 5000. -/
theorem timer_pause_resume_roundtrip_witness :
    initState.timerRunning = false
    ∧ (timerPause 3000 (timerStart 1000 5000 initState)).timerRemaining = 1000 + 5000 - 3000
    ∧ (timerResume 10000 (timerPause 3000 (timerStart 1000 5000 initState))).timerRemaining
        = 1000 + 5000 - 3000
    ∧ (timerResume 10000 (timerPause 3000 (timerStart 1000 5000 initState))).timerRunning
        = true :=
  ⟨by decide,
    (timer_pause_resume_roundtrip initState 1000 3000 10000 5000
      (by decide) (by decide) (by decide) (by decide) (by decide)).1,
    (timer_pause_resume_roundtrip initState 1000 3000 10000 5000
      (by decide) (by decide) (by decide) (by decide) (by decide)).2.2.1,
    (timer_pause_resume_roundtrip initState 1000 3000 10000 5000
      (by decide) (by decide) (by decide) (by decide) (by decide)).2.2.2.2.2.1⟩

/-- C5 witness: the heartbeat at 2500 of a timer with deadline 2000 expires
it (one emission, 5 s ring window), and later heartbeats change nothing. -/
theorem timer_expiry_emitted_once_witness :
    expiringTimerState.timerRunning = true
    ∧ (timerTick 2500 expiringTimerState).timerRemaining = 0
    ∧ (timerTick 2500 expiringTimerState).expiredEvents
        = expiringTimerState.expiredEvents + 1
    ∧ (timerTick 2500 expiringTimerState).ringTimeout = some (2500 + 5000)
    ∧ timerRun [2750, 3000] (timerTick 2500 expiringTimerState)
        = timerTick 2500 expiringTimerState :=
  ⟨by decide,
    (timer_expiry_emitted_once expiringTimerState 2000 2500 (by decide) (by decide)
      (by decide) (by decide)).1,
    (timer_expiry_emitted_once expiringTimerState 2000 2500 (by decide) (by decide)
      (by decide) (by decide)).2.2.1,
    (timer_expiry_emitted_once expiringTimerState 2000 2500 (by decide) (by decide)
      (by decide) (by decide)).2.2.2.2.1,
    (timer_expiry_emitted_once expiringTimerState 2000 2500 (by decide) (by decide)
      (by decide) (by decide)).2.2.2.2.2.2 [2750, 3000]⟩

/-- C6 witness: with the timer idle, a nonpositive duration leaves the
state untouched. -/
theorem timerStart_nonpos_noop_when_idle_witness :
    ((-1 : Int) ≤ 0)
    ∧ initState.timerRunning = false
    ∧ timerStart 0 (-1) initState = initState :=
  ⟨by decide, by decide,
    (timerStart_nonpos_noop_when_idle 0 (-1) initState (by decide)).1 (by decide)⟩

/-- C7 witness: an auto step from index 3 (STOPWATCH) lands below 3, while a
manual step from index 2 reaches STOPWATCH. -/
theorem mode_cycling_bounds_witness :
    autoCycleAdvance 3 < 3 ∧ cycleMode 2 = 3 :=
  ⟨(mode_cycling_bounds 3).2.1, (mode_cycling_bounds 3).2.2.2.2.2.2.1⟩

/-- C8 witness: a running timer with 400 ms left displays 0:01, not 0:00. -/
theorem timer_display_semantics_witness :
    display400State.timerRunning = true
    ∧ display400State.timerRemaining = 400
    ∧ timerDisplay display400State = (0, 1) :=
  ⟨by decide, by decide,
    (timer_display_semantics display400State).2.2.2 (by decide) (by decide)⟩

/-- C9 witness: `timerReset` on the initial state zeroes the timer, silences
the shared ringing flag and leaves the 5 s expiry timeout slot unchanged. -/
theorem timerReset_effects_witness :
    (timerReset initState).isAlarmRinging = false
    ∧ (timerReset initState).ringTimeout = initState.ringTimeout :=
  ⟨(timerReset_effects initState).2.2.2.2.1,
    (timerReset_effects initState).2.2.2.2.2.2.1⟩

/-- C10 witness: after the timer expiry at 2500 raises the shared ringing
flag, the clock tick at 30000 — whose minute matches the enabled alarm —
leaves the state unchanged: no alarm ring or 60 s window starts. -/
theorem alarm_check_skipped_while_ringing_witness :
    (timerTick 2500 expiryRingMatchState).isAlarmRinging = true
    ∧ currentHHMM 30000 = (timerTick 2500 expiryRingMatchState).alarmTime
    ∧ alarmCheck 30000 (timerTick 2500 expiryRingMatchState)
        = timerTick 2500 expiryRingMatchState :=
  ⟨by decide, by decide,
    (alarm_check_skipped_while_ringing 30000 (timerTick 2500 expiryRingMatchState)
      (by decide)).1⟩

end ClockApp
